import Mathlib

/-!
Shallow embedding of `enthought/mayavi/tools/sources.py` (mlab data-source
builders).  Numeric array values are modelled over `ℚ`; numpy `ndarray`s are
a shape together with the row-major flat data list; Python exceptions
(`ValueError`, `AssertionError`, `IndexError`, `AttributeError`) are modelled
as `Except String`.  External collaborators that are not part of this file's
source (`mlab.Glyphs`, `ArraySource`, `tvtk.PolyData`,
`mlab._create_structured_points_direct`, `mlab.make_triangles_points`,
`tools._add_data`) are modelled, following the spec, as inert records of the
constructor arguments the module hands them.
-/

deriving instance DecidableEq for Except

/-- A numpy ndarray: a shape and the flat data in row-major (C) order. -/
structure NDArray where
  shape : List ℕ
  data : List ℚ
deriving DecidableEq, Repr

/-- `a.ravel()`: row-major flattening.  On the row-major flat representation
this keeps the data list unchanged and forgets the shape. -/
def NDArray.ravel (a : NDArray) : NDArray :=
  ⟨[a.data.length], a.data⟩

/-- Element access `a[i, j, k]` on a 3-D array; `none` models the
`IndexError` (or too-many-indices error) Python raises when the index or the
dimensionality is invalid. -/
def NDArray.at3 (a : NDArray) (i j k : ℕ) : Option ℚ :=
  match a.shape with
  | [n0, n1, n2] =>
      if i < n0 ∧ j < n1 ∧ k < n2 then a.data[(i * n1 + j) * n2 + k]? else none
  | _ => none

/-- `a.min()`: numpy raises on an empty array, hence `Except`. -/
def NDArray.minVal (a : NDArray) : Except String ℚ :=
  match a.data with
  | [] => Except.error "zero-size array reduction"
  | q :: qs => Except.ok (qs.foldl min q)

/-- `a.max()`: numpy raises on an empty array, hence `Except`. -/
def NDArray.maxVal (a : NDArray) : Except String ℚ :=
  match a.data with
  | [] => Except.error "zero-size array reduction"
  | q :: qs => Except.ok (qs.foldl max q)

/-- `a.T` for a 2-D array: axes reversed, so entry `(j, i)` of the result is
entry `(i, j)` of `a`.  The module only transposes arrays already asserted to
be 2-D, so other shapes are left untouched. -/
def NDArray.T2 (a : NDArray) : NDArray :=
  match a.shape with
  | [n0, n1] =>
      ⟨[n1, n0],
        (List.range n1).flatMap (fun j =>
          (List.range n0).map (fun i => (a.data[i * n1 + j]?).getD 0))⟩
  | _ => a

/-- `numpy.indices((n0, n1, n2))`: the three per-axis index grids, with
`x[i,j,k] = i`, `y[i,j,k] = j`, `z[i,j,k] = k`. -/
def indices3 (n0 n1 n2 : ℕ) : NDArray × NDArray × NDArray :=
  let grid (f : ℕ → ℕ → ℕ → ℚ) : NDArray :=
    ⟨[n0, n1, n2],
      (List.range n0).flatMap (fun i =>
        (List.range n1).flatMap (fun j =>
          (List.range n2).map (fun k => f i j k)))⟩
  (grid (fun i _ _ => (i : ℚ)), grid (fun _ j _ => (j : ℚ)),
    grid (fun _ _ k => (k : ℚ)))

/-- `numpy.indices((n0, n1))`: the two per-axis index grids in 2-D. -/
def indices2 (n0 n1 : ℕ) : NDArray × NDArray :=
  let grid (f : ℕ → ℕ → ℚ) : NDArray :=
    ⟨[n0, n1],
      (List.range n0).flatMap (fun i =>
        (List.range n1).map (fun j => f i j))⟩
  (grid (fun i _ => (i : ℚ)), grid (fun _ j => (j : ℚ)))

/-- `numpy.c_[x, y, z]` on three equal-length flat arrays: the list of rows. -/
def zip3 : List ℚ → List ℚ → List ℚ → List (ℚ × ℚ × ℚ)
  | x :: xs, y :: ys, z :: zs => (x, y, z) :: zip3 xs ys zs
  | _, _, _ => []

/-- `numpy.concatenate([u[...,newaxis], v[...,newaxis], w[...,newaxis]], axis=3)`
flattens, in row-major order, to the per-point interleaving of the three
component arrays. -/
def interleave3 : List ℚ → List ℚ → List ℚ → List ℚ
  | a :: as, b :: bs, c :: cs => a :: b :: c :: interleave3 as bs cs
  | _, _, _ => []

/-- `numpy.arange(start, stop, 1).astype(long)` with integer `start`:
`ceil(stop - start)` consecutive integers from `start`. -/
def arangeL (start : ℤ) (stop : ℚ) : List ℤ :=
  (List.range (⌈stop - (start : ℚ)⌉.toNat)).map (fun i => start + i)

/-- `numpy.linspace(a, b, n)`: `n` evenly spaced samples from `a` to `b`
inclusive (a single sample sits at `a`). -/
def linspace (a b : ℚ) (n : ℕ) : List ℚ :=
  if n = 1 then [a]
  else (List.range n).map (fun i => a + (b - a) * i / ((n : ℚ) - 1))

/-- A positional argument of `process_regular_vectors`: a numpy array or a
callable returning the three vector-component arrays. -/
inductive VArg where
  | arr (a : NDArray)
  | fn (f : NDArray → NDArray → NDArray → NDArray × NDArray × NDArray)

/-- A positional argument of `process_regular_scalars` / `linesource`: a
numpy array or a callable returning the scalar array. -/
inductive SArg where
  | arr (a : NDArray)
  | fn (f : NDArray → NDArray → NDArray → NDArray)

/-- A positional argument of `process_regular_2d_scalars` /
`array2dsource`. -/
inductive S2Arg where
  | arr (a : NDArray)
  | fn (f : NDArray → NDArray → NDArray)

/-- Using a non-array where an attribute such as `.shape` is read raises an
`AttributeError` in Python; modelled as an error. -/
def VArg.asArr : VArg → Except String NDArray
  | VArg.arr a => Except.ok a
  | VArg.fn _ => Except.error "object has no attribute shape"

/-- Same as `VArg.asArr` for scalar-signature arguments. -/
def SArg.asArr : SArg → Except String NDArray
  | SArg.arr a => Except.ok a
  | SArg.fn _ => Except.error "object has no attribute shape"

/-- Same as `VArg.asArr` for 2-D-signature arguments. -/
def S2Arg.asArr : S2Arg → Except String NDArray
  | S2Arg.arr a => Except.ok a
  | S2Arg.fn _ => Except.error "object has no attribute shape"

/-- The shape assertion of `process_regular_vectors` (sources.py lines
45-49): the chain `x.shape == y.shape`, `y.shape == z.shape`,
`u.shape == z.shape`, `v.shape == u.shape`, `w.shape == v.shape`. -/
def shapeOkV (x y z u v w : NDArray) : Bool :=
  x.shape == y.shape && y.shape == z.shape && u.shape == z.shape &&
    v.shape == u.shape && w.shape == v.shape

/-- The shape assertion of `process_regular_scalars` (lines 69-72):
`x.shape == y.shape and y.shape == z.shape and (s == None or
s.shape == z.shape)` (in the 2007-era numpy of this module, `s == None` for
an array `s` is the scalar `False`). -/
def shapeOkS (x y z : NDArray) (s : Option NDArray) : Bool :=
  x.shape == y.shape && y.shape == z.shape &&
    (match s with
      | none => true
      | some t => t.shape == z.shape)

/-- The shape assertion of `process_regular_2d_scalars` (lines 89-90). -/
def shapeOk2 (x y s : NDArray) : Bool :=
  x.shape == y.shape && s.shape == y.shape

/-- `process_regular_vectors` (sources.py lines 29-51): converts the
3-, 6- and 4-argument signatures to `(x, y, z, u, v, w)` and asserts all six
shapes equal. -/
def process_regular_vectors (args : List VArg) :
    Except String (NDArray × NDArray × NDArray × NDArray × NDArray × NDArray) :=
  match args with
  | [a1, a2, a3] => do
      let u ← a1.asArr
      let v ← a2.asArr
      let w ← a3.asArr
      match u.shape with
      | [n0, n1, n2] =>
          let (x, y, z) := indices3 n0 n1 n2
          if shapeOkV x y z u v w then Except.ok (x, y, z, u, v, w)
          else Except.error "argument shape are not equal"
      | _ => Except.error "3D array required"
  | [a1, a2, a3, a4, a5, a6] => do
      let x ← a1.asArr
      let y ← a2.asArr
      let z ← a3.asArr
      let u ← a4.asArr
      let v ← a5.asArr
      let w ← a6.asArr
      if shapeOkV x y z u v w then Except.ok (x, y, z, u, v, w)
      else Except.error "argument shape are not equal"
  | [a1, a2, a3, a4] =>
      match a4 with
      | VArg.arr _ =>
          Except.error "When 4 arguments are provided, the fourth must be a callable"
      | VArg.fn f => do
          let x ← a1.asArr
          let y ← a2.asArr
          let z ← a3.asArr
          let (u, v, w) := f x y z
          if shapeOkV x y z u v w then Except.ok (x, y, z, u, v, w)
          else Except.error "argument shape are not equal"
  | _ => Except.error "wrong number of arguments"

/-- `process_regular_scalars` (sources.py lines 53-74): converts the 1-, 3-
and 4-argument signatures to `(x, y, z, s)` (with `s` absent on the
3-argument path, and invoked on `(x, y, z)` when callable). -/
def process_regular_scalars (args : List SArg) :
    Except String (NDArray × NDArray × NDArray × Option NDArray) :=
  match args with
  | [a1] => do
      let s ← a1.asArr
      match s.shape with
      | [n0, n1, n2] =>
          let (x, y, z) := indices3 n0 n1 n2
          if shapeOkS x y z (some s) then Except.ok (x, y, z, some s)
          else Except.error "argument shape are not equal"
      | _ => Except.error "3D array required"
  | [a1, a2, a3] => do
      let x ← a1.asArr
      let y ← a2.asArr
      let z ← a3.asArr
      if shapeOkS x y z none then Except.ok (x, y, z, none)
      else Except.error "argument shape are not equal"
  | [a1, a2, a3, a4] => do
      let x ← a1.asArr
      let y ← a2.asArr
      let z ← a3.asArr
      let s :=
        match a4 with
        | SArg.fn f => f x y z
        | SArg.arr a => a
      if shapeOkS x y z (some s) then Except.ok (x, y, z, some s)
      else Except.error "argument shape are not equal"
  | _ => Except.error "wrong number of arguments"

/-- `process_regular_2d_scalars` (sources.py lines 76-92): converts the
1- and 3-argument signatures to `(x, y, s)`. -/
def process_regular_2d_scalars (args : List S2Arg) :
    Except String (NDArray × NDArray × NDArray) :=
  match args with
  | [a1] => do
      let s ← a1.asArr
      match s.shape with
      | [n0, n1] =>
          let (x, y) := indices2 n0 n1
          if shapeOk2 x y s then Except.ok (x, y, s)
          else Except.error "argument shape are not equal"
      | _ => Except.error "2D array required"
  | [a1, a2, a3] => do
      let x ← a1.asArr
      let y ← a2.asArr
      let s :=
        match a3 with
        | S2Arg.fn f => f x y
        | S2Arg.arr a => a
      if shapeOk2 x y s then Except.ok (x, y, s)
      else Except.error "argument shape are not equal"
  | _ => Except.error "wrong number of arguments"

/-- A keyword-argument value: builder keyword arguments hold either a name
string or a scalar-overlay array. -/
inductive KwArg where
  | str (s : String)
  | arr (a : NDArray)
deriving DecidableEq, Repr

/-- Keyword arguments: a Python `**kwargs` dict (unique keys). -/
def Kwargs := List (String × KwArg)

/-- `kwargs.get(k)` on the dict. -/
def kwLookup (kwargs : Kwargs) (k : String) : Option KwArg :=
  (kwargs.find? (fun p => p.1 == k)).map Prod.snd

/-- `kwargs.pop(k, default)` expecting a string value (the `name`
keyword). -/
def kwStr (kwargs : Kwargs) (k d : String) : String :=
  match kwLookup kwargs k with
  | some (KwArg.str s) => s
  | _ => d

/-- `kwargs.pop(k, None)` expecting an array value (the scalar-overlay
keyword). -/
def kwArr (kwargs : Kwargs) (k : String) : Option NDArray :=
  match kwLookup kwargs k with
  | some (KwArg.arr a) => some a
  | _ => none

/-- The renderer-native object a builder constructs.  Modelled from the spec:
the external collaborators (glyph-data helper `mlab.Glyphs`, `ArraySource`,
`tvtk.PolyData`, structured-grid helper `_create_structured_points_direct`,
mesh helpers `make_triangles_points` / `make_triangle_polydata`) live outside
this module, so each constructor is an inert record of exactly the arguments
the module hands the collaborator. -/
inductive DataSource where
  | glyphData (points : List (ℚ × ℚ × ℚ)) (vectors : Option (List (ℚ × ℚ × ℚ)))
      (scalars : Option NDArray)
  | arraySource (transposeInputArray : Option Bool) (scalarData : Option NDArray)
      (vectorData : Option NDArray) (origin : List ℚ) (spacing : List ℚ)
  | polyData (points : List (ℚ × ℚ × ℚ)) (lines : List (ℤ × ℤ))
      (pointScalars : Option NDArray)
  | structuredPoints (xAxis yAxis : List ℚ) (pointScalars : List ℚ)
      (scalarType : String) (numberOfScalarComponents : ℕ)
  | triangleMesh (x y z scalars : NDArray)
deriving DecidableEq, Repr

/-- Modelled from the spec: the registration collaborator `tools._add_data`
attaches the built object to the scene under the resolved display name; for
this module it amounts to handing over the pair. -/
structure Registered where
  source : DataSource
  name : String
deriving DecidableEq, Repr

/-- Lifts `a[i, j, k]` into the error monad (`IndexError` on failure). -/
def getE (o : Option ℚ) : Except String ℚ :=
  match o with
  | some q => Except.ok q
  | none => Except.error "index out of range"

/-- `vectorscatter` (sources.py lines 99-127): normalizes the arguments,
flattens to point and vector rows, pops the `scalar` keyword (the docstring
advertises `scalars`) and the `name` keyword (default `"VectorScatter"`), and
registers the glyph data built from `(points, vectors, scalars)`. -/
def vectorscatter (args : List VArg) (kwargs : Kwargs) : Except String Registered := do
  let (x, y, z, u, v, w) ← process_regular_vectors args
  let points := zip3 x.data y.data z.data
  let vectors := zip3 u.data v.data w.data
  let scalars := kwArr kwargs "scalar"
  let name := kwStr kwargs "name" "VectorScatter"
  Except.ok ⟨DataSource.glyphData points (some vectors) scalars, name⟩

/-- `vectorfield` (sources.py lines 130-177): normalizes the arguments,
derives the spacing from the first-axis deltas `x[1,0,0]-x[0,0,0]`,
`y[0,1,0]-y[0,0,0]`, `z[0,0,1]-z[0,0,0]`, stacks the vector components along
a trailing axis, pops the `scalars` keyword, then rebinds `kwargs` to a fresh
dict (so the later `name` pop always yields the default `"VectorField"`), and
registers an `ArraySource` with origin `[x.min(), y.min(), z.min()]`. -/
def vectorfield (args : List VArg) (kwargs : Kwargs) : Except String Registered := do
  let (x, y, z, u, v, w) ← process_regular_vectors args
  let xa ← getE (x.at3 1 0 0)
  let xb ← getE (x.at3 0 0 0)
  let dx := xa - xb
  let ya ← getE (y.at3 0 1 0)
  let yb ← getE (y.at3 0 0 0)
  let dy := ya - yb
  let za ← getE (z.at3 0 0 1)
  let zb ← getE (z.at3 0 0 0)
  let dz := za - zb
  let vectors : NDArray := ⟨u.shape ++ [3], interleave3 u.data v.data w.data⟩
  let scalars := kwArr kwargs "scalars"
  let kwargs : Kwargs := []
  let kwargs : Kwargs :=
    match scalars with
    | some s => [("scalar_data", KwArg.arr s)]
    | none => kwargs
  let xmin ← x.minVal
  let ymin ← y.minVal
  let zmin ← z.minVal
  let src := DataSource.arraySource (some true) scalars (some vectors)
    [xmin, ymin, zmin] [dx, dy, dz]
  let name := kwStr kwargs "name" "VectorField"
  Except.ok ⟨src, name⟩

/-- `scalarscatter` (sources.py lines 180-210): normalizes the arguments,
flattens to point rows, ravels the scalar overlay when present, and registers
glyph data with no vectors (default name `"ScalarScatter"`). -/
def scalarscatter (args : List SArg) (kwargs : Kwargs) : Except String Registered := do
  let (x, y, z, s) ← process_regular_scalars args
  let points := zip3 x.data y.data z.data
  let s := s.map NDArray.ravel
  let name := kwStr kwargs "name" "ScalarScatter"
  Except.ok ⟨DataSource.glyphData points none s, name⟩

/-- `scalarfield` (sources.py lines 213-248): normalizes the arguments,
derives the spacing from the first-axis deltas, and registers an
`ArraySource` whose origin is the first point row
`(x.ravel()[0], y.ravel()[0], z.ravel()[0])` (default name
`"ScalarField"`). -/
def scalarfield (args : List SArg) (kwargs : Kwargs) : Except String Registered := do
  let (x, y, z, s) ← process_regular_scalars args
  let xa ← getE (x.at3 1 0 0)
  let xb ← getE (x.at3 0 0 0)
  let dx := xa - xb
  let ya ← getE (y.at3 0 1 0)
  let yb ← getE (y.at3 0 0 0)
  let dy := ya - yb
  let za ← getE (z.at3 0 0 1)
  let zb ← getE (z.at3 0 0 0)
  let dz := za - zb
  let x0 ← getE x.data[0]?
  let y0 ← getE y.data[0]?
  let z0 ← getE z.data[0]?
  let src := DataSource.arraySource none s none [x0, y0, z0] [dx, dy, dz]
  let name := kwStr kwargs "name" "ScalarField"
  Except.ok ⟨src, name⟩

/-- `linesource` (sources.py lines 251-283): rejects single-argument calls,
normalizes the rest through `process_regular_scalars`, builds the
`(n-1) × 2` connectivity array from `numpy.arange(0, np-0.5, 1)` and
`numpy.arange(1, np+0.5, 1)` columns, ravels the scalar overlay into the
point scalars when present, and registers the polyline (default name
`"LineSource"`).  `numpy.zeros((np, 2))` raises on the empty-input case
`np = -1`. -/
def linesource (args : List SArg) (kwargs : Kwargs) : Except String Registered := do
  if args.length = 1 then
    Except.error "wrong number of arguments"
  else
    let (x, y, z, s) ← process_regular_scalars args
    let points := zip3 x.data y.data z.data
    if points.length = 0 then
      Except.error "negative dimensions are not allowed"
    else
      let np := points.length - 1
      let col0 := arangeL 0 ((np : ℚ) - 1/2)
      let col1 := arangeL 1 ((np : ℚ) + 1/2)
      let lines := col0.zip col1
      let s := s.map NDArray.ravel
      let name := kwStr kwargs "name" "LineSource"
      Except.ok ⟨DataSource.polyData points lines s, name⟩

/-- `array2dsource` (sources.py lines 286-323): with a single `nx × ny`
array, registers an `ArraySource` with origin `[-nx/2., ny/2., 0]` and unit
spacing; otherwise normalizes through `process_regular_2d_scalars`, samples
each axis by `linspace` between that coordinate's min and max, and stores the
transposed, ravelled scalars on the structured-points collaborator with
scalar type `unsigned_char` and one scalar component (default name
`"Array2DSource"`). -/
def array2dsource (args : List S2Arg) (kwargs : Kwargs) : Except String Registered := do
  match args with
  | [a1] => do
      let s ← a1.asArr
      match s.shape with
      | [nx, ny] =>
          let src := DataSource.arraySource (some true) (some s) none
            [-(nx : ℚ) / 2, (ny : ℚ) / 2, 0] [1, 1, 1]
          Except.ok ⟨src, kwStr kwargs "name" "Array2DSource"⟩
      | _ => Except.error "shape unpack failed"
  | _ => do
      let (x, y, s) ← process_regular_2d_scalars args
      match s.shape with
      | [nx, ny] =>
          let xmin ← x.minVal
          let xmax ← x.maxVal
          let ymin ← y.minVal
          let ymax ← y.maxVal
          let xa := linspace xmin xmax nx
          let ya := linspace ymin ymax ny
          let s := s.T2
          let s := s.ravel
          let src := DataSource.structuredPoints xa ya s.data "unsigned_char" 1
          Except.ok ⟨src, kwStr kwargs "name" "Array2DSource"⟩
      | _ => Except.error "2D array required"

/-- `gridsource` (sources.py lines 326-341): the elevation array doubles as
the default scalars, the `name` keyword defaults to `"GridSource"`, and the
mesh collaborators receive `(x, y, z, scalars)`. -/
def gridsource (x y z : NDArray) (kwargs : Kwargs) : Registered :=
  let scalars := (kwArr kwargs "scalars").getD z
  let name := kwStr kwargs "name" "GridSource"
  ⟨DataSource.triangleMesh x y z scalars, name⟩

/-- The chained shape assertion of `process_regular_vectors` holds exactly
when all six arrays share one shape. -/
theorem shapeOkV_iff (x y z u v w : NDArray) :
    shapeOkV x y z u v w = true ↔
      (y.shape = x.shape ∧ z.shape = x.shape ∧ u.shape = x.shape ∧
        v.shape = x.shape ∧ w.shape = x.shape) := by
  simp only [shapeOkV, Bool.and_eq_true, beq_iff_eq]
  constructor
  · rintro ⟨⟨⟨⟨h1, h2⟩, h3⟩, h4⟩, h5⟩
    refine ⟨h1.symm, ?_, ?_, ?_, ?_⟩ <;> simp_all
  · rintro ⟨h1, h2, h3, h4, h5⟩
    refine ⟨⟨⟨⟨?_, ?_⟩, ?_⟩, ?_⟩, ?_⟩ <;> simp_all

/-- C2: a 6-positional-argument call to `process_regular_vectors` in which
all six arrays share one shape returns the six inputs unchanged (identity
pass-through), and a call in which some pair of the six arrays differs in
shape raises the shape-mismatch error. -/
theorem process_regular_vectors_six (x y z u v w : NDArray) :
    ((y.shape = x.shape ∧ z.shape = x.shape ∧ u.shape = x.shape ∧
        v.shape = x.shape ∧ w.shape = x.shape) →
      process_regular_vectors
          [VArg.arr x, VArg.arr y, VArg.arr z, VArg.arr u, VArg.arr v, VArg.arr w] =
        Except.ok (x, y, z, u, v, w)) ∧
    (¬ (y.shape = x.shape ∧ z.shape = x.shape ∧ u.shape = x.shape ∧
        v.shape = x.shape ∧ w.shape = x.shape) →
      process_regular_vectors
          [VArg.arr x, VArg.arr y, VArg.arr z, VArg.arr u, VArg.arr v, VArg.arr w] =
        Except.error "argument shape are not equal") := by
  have hred : process_regular_vectors
      [VArg.arr x, VArg.arr y, VArg.arr z, VArg.arr u, VArg.arr v, VArg.arr w] =
      if shapeOkV x y z u v w then Except.ok (x, y, z, u, v, w)
      else Except.error "argument shape are not equal" := rfl
  constructor
  · intro h
    rw [hred, if_pos ((shapeOkV_iff x y z u v w).mpr h)]
  · intro h
    rw [hred, if_neg]
    intro hc
    exact h ((shapeOkV_iff x y z u v w).mp hc)

def exA : NDArray := ⟨[2], [0, 1]⟩

def exB : NDArray := ⟨[2], [5, 7]⟩

def exC : NDArray := ⟨[3], [1, 2, 3]⟩

theorem process_regular_vectors_six_witness :
    process_regular_vectors
        [VArg.arr exA, VArg.arr exB, VArg.arr exA, VArg.arr exB, VArg.arr exA, VArg.arr exB] =
      Except.ok (exA, exB, exA, exB, exA, exB) ∧
    process_regular_vectors
        [VArg.arr exA, VArg.arr exB, VArg.arr exA, VArg.arr exB, VArg.arr exA, VArg.arr exC] =
      Except.error "argument shape are not equal" :=
  ⟨(process_regular_vectors_six exA exB exA exB exA exB).1 (by decide),
    (process_regular_vectors_six exA exB exA exB exA exC).2 (by decide)⟩

/-- On the 4-argument path with a callable last argument,
`process_regular_vectors` reduces to the shape check over the callable's
output components. -/
theorem process_regular_vectors_four_fn (x y z : NDArray)
    (g : NDArray → NDArray → NDArray → NDArray × NDArray × NDArray) :
    process_regular_vectors [VArg.arr x, VArg.arr y, VArg.arr z, VArg.fn g] =
      if shapeOkV x y z (g x y z).1 (g x y z).2.1 (g x y z).2.2 then
        Except.ok (x, y, z, (g x y z).1, (g x y z).2.1, (g x y z).2.2)
      else Except.error "argument shape are not equal" := by
  rcases hg : g x y z with ⟨u0, v0, w0⟩
  simp only [process_regular_vectors, VArg.asArr, hg, bind, Except.bind]

/-- C7: a 4-positional-argument call to `process_regular_vectors` whose
fourth argument is not invocable raises the invalid-argument error, and when
the fourth argument is invocable every returned `(u, v, w)` equals the value
of the callable applied to `(x, y, z)` (with `x`, `y`, `z` passed through
unchanged). -/
theorem process_regular_vectors_four (x y z a : NDArray)
    (g : NDArray → NDArray → NDArray → NDArray × NDArray × NDArray) :
    process_regular_vectors [VArg.arr x, VArg.arr y, VArg.arr z, VArg.arr a] =
      Except.error "When 4 arguments are provided, the fourth must be a callable" ∧
    (∀ x' y' z' u v w,
      process_regular_vectors [VArg.arr x, VArg.arr y, VArg.arr z, VArg.fn g] =
          Except.ok (x', y', z', u, v, w) →
      (u, v, w) = g x y z ∧ x' = x ∧ y' = y ∧ z' = z) := by
  constructor
  · rfl
  · intro x' y' z' u v w h
    rw [process_regular_vectors_four_fn x y z g] at h
    by_cases hc : shapeOkV x y z (g x y z).1 (g x y z).2.1 (g x y z).2.2
    · rw [if_pos hc] at h
      injection h with h
      obtain ⟨e1, e2, e3, e4, e5, e6⟩ := Prod.mk.injEq .. ▸ h
      · simp_all
    · rw [if_neg hc] at h
      exact absurd h (by simp)

def fnRot : NDArray → NDArray → NDArray → NDArray × NDArray × NDArray :=
  fun a b c => (c, a, b)

theorem process_regular_vectors_four_witness :
    process_regular_vectors [VArg.arr exA, VArg.arr exB, VArg.arr exA, VArg.arr exB] =
      Except.error "When 4 arguments are provided, the fourth must be a callable" ∧
    ((exA, exA, exB) = fnRot exA exB exA ∧ exA = exA ∧ exB = exB ∧ exA = exA) :=
  ⟨(process_regular_vectors_four exA exB exA exB fnRot).1,
    (process_regular_vectors_four exA exB exA exB fnRot).2 exA exB exA exA exA exB (by decide)⟩

/-- The half-integer ceilings produced by the `arange` stops of
`linesource`. -/
theorem ceil_cast_sub_half (m : ℕ) : ⌈(m : ℚ) - 1/2⌉ = (m : ℤ) := by
  rw [Int.ceil_eq_iff]
  constructor <;> push_cast <;> linarith

/-- First connectivity column: `arange(0, np - 0.5, 1)` is `0, …, np-1`. -/
theorem arangeL_zero (m : ℕ) :
    arangeL 0 ((m : ℚ) - 1/2) = (List.range m).map (fun i => (i : ℤ)) := by
  unfold arangeL
  rw [show ((m : ℚ) - 1/2 - ((0 : ℤ) : ℚ)) = (m : ℚ) - 1/2 by push_cast; ring,
    ceil_cast_sub_half, Int.toNat_natCast]
  simp

/-- Second connectivity column: `arange(1, np + 0.5, 1)` is `1, …, np`. -/
theorem arangeL_one (m : ℕ) :
    arangeL 1 ((m : ℚ) + 1/2) = (List.range m).map (fun i => (i : ℤ) + 1) := by
  unfold arangeL
  rw [show ((m : ℚ) + 1/2 - ((1 : ℤ) : ℚ)) = (m : ℚ) - 1/2 by push_cast; ring,
    ceil_cast_sub_half, Int.toNat_natCast]
  simp [add_comm]

/-- The zipped connectivity columns list exactly the consecutive segments
`(i, i+1)` for `i < np`. -/
theorem lines_closed_form (m : ℕ) :
    (arangeL 0 ((m : ℚ) - 1/2)).zip (arangeL 1 ((m : ℚ) + 1/2)) =
      (List.range m).map (fun i => ((i : ℤ), (i : ℤ) + 1)) := by
  rw [arangeL_zero, arangeL_one, List.zip_map']

theorem zip3_length (a b c : List ℚ) :
    (zip3 a b c).length = min a.length (min b.length c.length) := by
  induction a generalizing b c with
  | nil => simp [zip3]
  | cons x xs ih =>
      cases b with
      | nil => simp [zip3]
      | cons y ys =>
          cases c with
          | nil => simp [zip3]
          | cons z zs =>
              simp only [zip3, List.length_cons, ih]
              omega

/-- Reduction of a 3-array `linesource` call with `n ≥ 1` points: the
registered polyline holds the zipped point rows and the zipped `arange`
connectivity columns. -/
theorem linesource_three_arr (x y z : NDArray) (kw : Kwargs) (n : ℕ)
    (hsh : shapeOkS x y z none = true) (hn : 1 ≤ n)
    (hx : x.data.length = n) (hy : y.data.length = n) (hz : z.data.length = n) :
    linesource [SArg.arr x, SArg.arr y, SArg.arr z] kw =
      Except.ok ⟨DataSource.polyData (zip3 x.data y.data z.data)
        ((List.range (n - 1)).map (fun i => ((i : ℤ), (i : ℤ) + 1))) none,
        kwStr kw "name" "LineSource"⟩ := by
  have hlen : (zip3 x.data y.data z.data).length = n := by
    rw [zip3_length, hx, hy, hz]; omega
  have hne : ¬ ((zip3 x.data y.data z.data).length = 0) := by omega
  simp only [linesource, process_regular_scalars, SArg.asArr, bind, Except.bind, hsh, if_true,
    List.length_cons, List.length_nil, Nat.reduceAdd, hne, if_false, Option.map_none]
  norm_num
  rw [hlen, lines_closed_form (n - 1)]
  rfl

/-- C6: a `linesource` call with `n ≥ 2` points builds exactly the `n - 1`
consecutive segments, segment `i` connecting point `i` to point `i + 1`, and
no other connectivity. -/
theorem linesource_segments (x y z : NDArray) (kw : Kwargs) (n : ℕ)
    (hsh : shapeOkS x y z none = true) (hn : 2 ≤ n)
    (hx : x.data.length = n) (hy : y.data.length = n) (hz : z.data.length = n) :
    linesource [SArg.arr x, SArg.arr y, SArg.arr z] kw =
      Except.ok ⟨DataSource.polyData (zip3 x.data y.data z.data)
        ((List.range (n - 1)).map (fun i => ((i : ℤ), (i : ℤ) + 1))) none,
        kwStr kw "name" "LineSource"⟩ :=
  linesource_three_arr x y z kw n hsh (by omega) hx hy hz

def lineX5 : NDArray := ⟨[5], [0, 1, 2, 3, 4]⟩

def lineY5 : NDArray := ⟨[5], [0, 0, 0, 0, 0]⟩

theorem linesource_segments_witness :
    linesource [SArg.arr lineX5, SArg.arr lineY5, SArg.arr lineY5] [] =
      Except.ok ⟨DataSource.polyData
        [(0, 0, 0), (1, 0, 0), (2, 0, 0), (3, 0, 0), (4, 0, 0)]
        [(0, 1), (1, 2), (2, 3), (3, 4)] none, "LineSource"⟩ :=
  (linesource_segments lineX5 lineY5 lineY5 [] 5 (by decide) (by decide)
    rfl rfl rfl).trans (by decide)

/-- C9: a `linesource` call supplying a scalar overlay `s` stores exactly
`s.ravel()` as the point scalars, whose flat data is `s`'s row-major data
unchanged, element for element, with no reordering. -/
theorem linesource_scalar_roundtrip (x y z s : NDArray) (kw : Kwargs) (n : ℕ)
    (hsh : shapeOkS x y z (some s) = true) (hn : 1 ≤ n)
    (hx : x.data.length = n) (hy : y.data.length = n) (hz : z.data.length = n) :
    linesource [SArg.arr x, SArg.arr y, SArg.arr z, SArg.arr s] kw =
      Except.ok ⟨DataSource.polyData (zip3 x.data y.data z.data)
        ((List.range (n - 1)).map (fun i => ((i : ℤ), (i : ℤ) + 1)))
        (some s.ravel), kwStr kw "name" "LineSource"⟩ ∧
    (NDArray.ravel s).data = s.data := by
  refine ⟨?_, rfl⟩
  have hlen : (zip3 x.data y.data z.data).length = n := by
    rw [zip3_length, hx, hy, hz]; omega
  have hne : ¬ ((zip3 x.data y.data z.data).length = 0) := by omega
  simp only [linesource, process_regular_scalars, SArg.asArr, bind, Except.bind, hsh, if_true,
    List.length_cons, List.length_nil, Nat.reduceAdd, hne, if_false, Option.map_some]
  norm_num
  rw [hlen, lines_closed_form (n - 1)]
  rfl

def sq2X : NDArray := ⟨[2, 2], [0, 0, 1, 1]⟩

def sq2Y : NDArray := ⟨[2, 2], [0, 1, 0, 1]⟩

def sq2S : NDArray := ⟨[2, 2], [1, 2, 3, 4]⟩

theorem linesource_scalar_roundtrip_witness :
    (linesource [SArg.arr sq2X, SArg.arr sq2Y, SArg.arr sq2Y, SArg.arr sq2S] [] =
      Except.ok ⟨DataSource.polyData
        [(0, 0, 0), (0, 1, 1), (1, 0, 0), (1, 1, 1)]
        [(0, 1), (1, 2), (2, 3)] (some ⟨[4], [1, 2, 3, 4]⟩), "LineSource"⟩) ∧
    (NDArray.ravel sq2S).data = sq2S.data :=
  ⟨((linesource_scalar_roundtrip sq2X sq2Y sq2Y sq2S [] 4 (by decide) (by decide)
      rfl rfl rfl).1).trans (by decide),
    (linesource_scalar_roundtrip sq2X sq2Y sq2Y sq2S [] 4 (by decide) (by decide)
      rfl rfl rfl).2⟩

def pt1 : NDArray := ⟨[1], [3]⟩

/-- C4 counterexample: a `linesource` call whose coordinate arrays hold
exactly 1 point raises no error — a polyline object with that single point
and zero segments is constructed and registered. -/
theorem linesource_single_point_succeeds :
    linesource [SArg.arr pt1, SArg.arr pt1, SArg.arr pt1] [] =
      Except.ok ⟨DataSource.polyData [(3, 3, 3)] [] none, "LineSource"⟩ := by
  have h := linesource_three_arr pt1 pt1 pt1 [] 1 (by decide) (by decide) rfl rfl rfl
  simpa [pt1, zip3, kwStr, kwLookup] using h

/-- C4 (amended): `linesource` raises the invalid-argument error exactly when
called with a single positional argument (an arity check, not a point-count
check); a 3-argument call supplying 1-point coordinate arrays succeeds and
registers a polyline with that point and no segments. -/
theorem linesource_arity_error (a : SArg) (kw : Kwargs) (x y z : NDArray) (cx cy cz : ℚ)
    (hsh : shapeOkS x y z none = true)
    (hx : x.data = [cx]) (hy : y.data = [cy]) (hz : z.data = [cz]) :
    linesource [a] kw = Except.error "wrong number of arguments" ∧
    linesource [SArg.arr x, SArg.arr y, SArg.arr z] kw =
      Except.ok ⟨DataSource.polyData [(cx, cy, cz)] [] none,
        kwStr kw "name" "LineSource"⟩ := by
  constructor
  · rfl
  · have h := linesource_three_arr x y z kw 1 hsh (by omega)
      (by rw [hx]; rfl) (by rw [hy]; rfl) (by rw [hz]; rfl)
    rw [h, hx, hy, hz]
    simp [zip3]

def pt2 : NDArray := ⟨[1], [2]⟩

theorem linesource_arity_error_witness :
    linesource [SArg.arr pt2] [] = Except.error "wrong number of arguments" ∧
    linesource [SArg.arr pt2, SArg.arr pt2, SArg.arr pt2] [] =
      Except.ok ⟨DataSource.polyData [(2, 2, 2)] [] none, "LineSource"⟩ :=
  ⟨(linesource_arity_error (SArg.arr pt2) [] pt2 pt2 pt2 2 2 2 (by decide) rfl rfl rfl).1,
    ((linesource_arity_error (SArg.arr pt2) [] pt2 pt2 pt2 2 2 2 (by decide)
      rfl rfl rfl).2).trans (by decide)⟩

/-- C8: a single-array `array2dsource` call with an `nx × ny` array registers
an `ArraySource` with origin `(-nx/2, ny/2, 0)` and spacing `(1, 1, 1)`. -/
theorem array2dsource_single_origin (s : NDArray) (nx ny : ℕ) (kw : Kwargs)
    (hsh : s.shape = [nx, ny]) :
    array2dsource [S2Arg.arr s] kw =
      Except.ok ⟨DataSource.arraySource (some true) (some s) none
        [-(nx : ℚ) / 2, (ny : ℚ) / 2, 0] [1, 1, 1],
        kwStr kw "name" "Array2DSource"⟩ := by
  simp only [array2dsource, S2Arg.asArr, bind, Except.bind, hsh]

def ex43 : NDArray := ⟨[4, 3], [0, 0, 0, 0, 0, 0, 0, 0, 0, 0, 0, 0]⟩

theorem array2dsource_single_origin_witness :
    array2dsource [S2Arg.arr ex43] [] =
      Except.ok ⟨DataSource.arraySource (some true) (some ex43) none
        [-2, 3/2, 0] [1, 1, 1], "Array2DSource"⟩ := by
  have h := array2dsource_single_origin ex43 4 3 [] rfl
  rw [h]
  norm_num [kwStr, kwLookup]

/-- C10: a coordinate-grid (3-argument) `array2dsource` call stores the
transpose of the scalar array, flattened (`s.T.ravel()`), as the point
scalars, and sets scalar type `unsigned_char` with one scalar component. -/
theorem array2dsource_grid_scalars (x y s : NDArray) (nx ny : ℕ) (kw : Kwargs)
    (mx Mx my My : ℚ)
    (hsh : shapeOk2 x y s = true) (hs : s.shape = [nx, ny])
    (hmx : x.minVal = Except.ok mx) (hMx : x.maxVal = Except.ok Mx)
    (hmy : y.minVal = Except.ok my) (hMy : y.maxVal = Except.ok My) :
    array2dsource [S2Arg.arr x, S2Arg.arr y, S2Arg.arr s] kw =
      Except.ok ⟨DataSource.structuredPoints (linspace mx Mx nx) (linspace my My ny)
        (NDArray.T2 s).data "unsigned_char" 1,
        kwStr kw "name" "Array2DSource"⟩ := by
  simp only [array2dsource, process_regular_2d_scalars, S2Arg.asArr, bind, Except.bind, hsh,
    if_true, hs, hmx, hMx, hmy, hMy, NDArray.ravel]

def gx23 : NDArray := ⟨[2, 3], [0, 0, 0, 1, 1, 1]⟩

def gy23 : NDArray := ⟨[2, 3], [0, 1, 2, 0, 1, 2]⟩

def gs23 : NDArray := ⟨[2, 3], [1, 2, 3, 4, 5, 6]⟩

theorem array2dsource_grid_scalars_witness :
    (array2dsource [S2Arg.arr gx23, S2Arg.arr gy23, S2Arg.arr gs23] [] =
      Except.ok ⟨DataSource.structuredPoints [0, 1] [0, 1, 2] [1, 4, 2, 5, 3, 6]
        "unsigned_char" 1, "Array2DSource"⟩) ∧
    (NDArray.T2 gs23).data ≠ gs23.data := by
  constructor
  · have h := array2dsource_grid_scalars gx23 gy23 gs23 2 3 [] 0 1 0 2 (by decide) rfl
      (by decide) (by decide) (by decide) (by decide)
    rw [h]
    norm_num [linspace, NDArray.T2, gs23, kwStr, kwLookup, List.range_succ]
  · decide

/-- C1 (amended): on structured-grid calls both `vectorfield` and
`scalarfield` derive the spacing triple as the first-axis deltas
`(x[1,0,0]-x[0,0,0], y[0,1,0]-y[0,0,0], z[0,0,1]-z[0,0,0])`; `vectorfield`
sets the origin to the grid's per-axis minimum `(x.min(), y.min(), z.min())`,
while `scalarfield` sets the origin to the grid's first sample
`(x[0,0,0], y[0,0,0], z[0,0,0])`, which coincides with the per-axis minimum
on nondecreasing (`mgrid`-style) grids such as the uniform step-0.5 grid. -/
theorem field_builders_spacing_origin (x y z u v w s : NDArray) (kw kw2 : Kwargs)
    (a b c d e f mx my mz x0 y0 z0 : ℚ)
    (h1 : x.at3 1 0 0 = some a) (h2 : x.at3 0 0 0 = some b)
    (h3 : y.at3 0 1 0 = some c) (h4 : y.at3 0 0 0 = some d)
    (h5 : z.at3 0 0 1 = some e) (h6 : z.at3 0 0 0 = some f)
    (hmx : x.minVal = Except.ok mx) (hmy : y.minVal = Except.ok my)
    (hmz : z.minVal = Except.ok mz)
    (hx0 : x.data[0]? = some x0) (hy0 : y.data[0]? = some y0)
    (hz0 : z.data[0]? = some z0)
    (hshv : shapeOkV x y z u v w = true)
    (hshs : shapeOkS x y z (some s) = true) :
    vectorfield [VArg.arr x, VArg.arr y, VArg.arr z, VArg.arr u, VArg.arr v, VArg.arr w] kw =
      Except.ok ⟨DataSource.arraySource (some true) (kwArr kw "scalars")
        (some ⟨u.shape ++ [3], interleave3 u.data v.data w.data⟩)
        [mx, my, mz] [a - b, c - d, e - f], "VectorField"⟩ ∧
    scalarfield [SArg.arr x, SArg.arr y, SArg.arr z, SArg.arr s] kw2 =
      Except.ok ⟨DataSource.arraySource none (some s) none
        [x0, y0, z0] [a - b, c - d, e - f], kwStr kw2 "name" "ScalarField"⟩ := by
  constructor
  · cases hsc : kwArr kw "scalars" with
    | none =>
        simp only [vectorfield, process_regular_vectors, VArg.asArr, bind, Except.bind, hshv,
          if_true, getE, h1, h2, h3, h4, h5, h6, hmx, hmy, hmz, hsc, kwStr, kwLookup]
        rfl
    | some t =>
        simp only [vectorfield, process_regular_vectors, VArg.asArr, bind, Except.bind, hshv,
          if_true, getE, h1, h2, h3, h4, h5, h6, hmx, hmy, hmz, hsc, kwStr, kwLookup]
        rfl
  · simp only [scalarfield, process_regular_scalars, SArg.asArr, bind, Except.bind, hshs,
      if_true, getE, h1, h2, h3, h4, h5, h6, hx0, hy0, hz0]

def gridDx : NDArray := ⟨[2, 2, 2], [1, 1, 1, 1, 0, 0, 0, 0]⟩

def gridIy : NDArray := ⟨[2, 2, 2], [0, 0, 1, 1, 0, 0, 1, 1]⟩

def gridIz : NDArray := ⟨[2, 2, 2], [0, 1, 0, 1, 0, 1, 0, 1]⟩

def zeros8 : NDArray := ⟨[2, 2, 2], [0, 0, 0, 0, 0, 0, 0, 0]⟩

/-- C1 counterexample: on a structured grid whose `x` coordinate decreases
along the first axis, `scalarfield` sets the origin to the first sample
`(1, 0, 0)` although the grid's per-axis minimum coordinate is
`(0, 0, 0)`. -/
theorem scalarfield_origin_not_min :
    scalarfield [SArg.arr gridDx, SArg.arr gridIy, SArg.arr gridIz, SArg.arr zeros8] [] =
      Except.ok ⟨DataSource.arraySource none (some zeros8) none [1, 0, 0] [-1, 1, 1],
        "ScalarField"⟩ ∧
    gridDx.minVal = Except.ok 0 := by
  constructor
  · norm_num [scalarfield, process_regular_scalars, SArg.asArr, bind, Except.bind, shapeOkS,
      getE, NDArray.at3, gridDx, gridIy, gridIz, zeros8, kwStr, kwLookup]
  · decide

def grid05x : NDArray := ⟨[2, 2, 2], [0, 0, 0, 0, 1/2, 1/2, 1/2, 1/2]⟩

def grid05y : NDArray := ⟨[2, 2, 2], [0, 0, 1/2, 1/2, 0, 0, 1/2, 1/2]⟩

def grid05z : NDArray := ⟨[2, 2, 2], [0, 1/2, 0, 1/2, 0, 1/2, 0, 1/2]⟩

theorem field_builders_spacing_origin_witness :
    vectorfield [VArg.arr grid05x, VArg.arr grid05y, VArg.arr grid05z,
        VArg.arr zeros8, VArg.arr zeros8, VArg.arr zeros8] [] =
      Except.ok ⟨DataSource.arraySource (some true) none
        (some ⟨[2, 2, 2, 3], interleave3 zeros8.data zeros8.data zeros8.data⟩)
        [0, 0, 0] [1/2, 1/2, 1/2], "VectorField"⟩ ∧
    scalarfield [SArg.arr grid05x, SArg.arr grid05y, SArg.arr grid05z,
        SArg.arr zeros8] [] =
      Except.ok ⟨DataSource.arraySource none (some zeros8) none
        [0, 0, 0] [1/2, 1/2, 1/2], "ScalarField"⟩ := by
  obtain ⟨hv, hs⟩ := field_builders_spacing_origin grid05x grid05y grid05z
    zeros8 zeros8 zeros8 zeros8 [] [] (1/2) 0 (1/2) 0 (1/2) 0 0 0 0 0 0 0
    rfl rfl rfl rfl rfl rfl
    (by norm_num [NDArray.minVal, grid05x, min_def])
    (by norm_num [NDArray.minVal, grid05y, min_def])
    (by norm_num [NDArray.minVal, grid05z, min_def])
    rfl rfl rfl rfl rfl
  constructor
  · rw [hv]
    norm_num [kwArr, kwStr, kwLookup, zeros8]
  · rw [hs]
    norm_num [kwStr, kwLookup]

def gridIx : NDArray := ⟨[2, 2, 2], [0, 0, 0, 0, 1, 1, 1, 1]⟩

/-- C3 failing input: `vectorfield` rebinds `kwargs` to a fresh dict before
popping `name`, so a call supplying `name="Custom"` still registers the built
object under the default literal `"VectorField"`, contradicting the
function's own docstring (every other builder resolves the supplied
name). -/
theorem vectorfield_drops_name_kwarg :
    vectorfield [VArg.arr gridIx, VArg.arr gridIy, VArg.arr gridIz,
        VArg.arr zeros8, VArg.arr zeros8, VArg.arr zeros8]
        [("name", KwArg.str "Custom")] =
      Except.ok ⟨DataSource.arraySource (some true) none
        (some ⟨[2, 2, 2, 3], interleave3 zeros8.data zeros8.data zeros8.data⟩)
        [0, 0, 0] [1, 1, 1], "VectorField"⟩ := by
  norm_num [vectorfield, process_regular_vectors, VArg.asArr, bind, Except.bind, shapeOkV,
    getE, NDArray.at3, NDArray.minVal, kwArr, kwStr, kwLookup, gridIx, gridIy, gridIz,
    zeros8, min_def, interleave3]
  decide

def zeros1 : NDArray := ⟨[1, 1, 1], [0]⟩

def sEx1 : NDArray := ⟨[1, 1, 1], [7]⟩

/-- C5 failing input: `vectorscatter` pops the keyword key `"scalar"` while
its docstring documents the overlay keyword as `"scalars"`; a call supplying
the documented `scalars` keyword therefore builds the glyph data with `None`
scalars instead of the supplied overlay. -/
theorem vectorscatter_ignores_scalars_kwarg :
    vectorscatter [VArg.arr zeros1, VArg.arr zeros1, VArg.arr zeros1]
        [("scalars", KwArg.arr sEx1)] =
      Except.ok ⟨DataSource.glyphData [(0, 0, 0)] (some [(0, 0, 0)]) none,
        "VectorScatter"⟩ := by
  rfl
